import Mathlib

/-!
Verification of the restaurant-booking adapter layer
(`backend/agent`): value parsers, the five tool-level request adapters,
the `RestaurantAPI` client payload builders, the `handle_api_error`
wrapper, and the `/chat` endpoint.  Python values, truthiness and the
relevant parts of `datetime.date/time.fromisoformat`, `int(...)` and
`str.lower` are embedded shallowly; machine-level details that no
modelled code path observes (exact `repr` of containers, unicode digits)
are approximated and flagged in comments.
-/

/-- A Python runtime value as it can appear in the tools' `params`
dictionaries and in form payloads: strings, integers, booleans, `None`,
lists and (string-keyed) dicts. -/
inductive PyVal where
  | str (s : String)
  | int (n : Int)
  | bool (b : Bool)
  | none
  | list (xs : List PyVal)
  | dict (kvs : List (String × PyVal))

/-- Python truthiness (`bool(v)`): empty string/containers, `0`, `False`
and `None` are falsy, everything else truthy. -/
def PyVal.truthy : PyVal → Bool
  | .str s => !(s == "")
  | .int n => !(n == 0)
  | .bool b => b
  | .none => false
  | .list xs => !xs.isEmpty
  | .dict kvs => !kvs.isEmpty

/-- `v is None` in Python. -/
def PyVal.isNone : PyVal → Bool
  | .none => true
  | _ => false

/-- The single-quote character, used to build Python error-message text
without writing a quote character directly. -/
def sglQuote : String := (Char.ofNat 39).toString

/-- Python `type(v).__name__` for the embedded values. -/
def pyTypeName : PyVal → String
  | .str _ => "str"
  | .int _ => "int"
  | .bool _ => "bool"
  | .none => "NoneType"
  | .list _ => "list"
  | .dict _ => "dict"

/-- Python `str(v)` as interpolated by f-strings.  Exact for the scalar
values (the only ones any modelled error message actually interpolates);
container values are abbreviated to their type name rather than a full
`repr`, since no claim evaluates a message containing a container. -/
def pyStr : PyVal → String
  | .str s => s
  | .int n => toString n
  | .bool true => "True"
  | .bool false => "False"
  | .none => "None"
  | .list _ => "list"
  | .dict _ => "dict"

/-- Calendar date, as produced by `datetime.date.fromisoformat`. -/
structure Date where
  year : Nat
  month : Nat
  day : Nat

/-- Time of day, as produced by `datetime.time.fromisoformat`. -/
structure Time where
  hour : Nat
  minute : Nat
  second : Nat
  microsecond : Nat

/-- Gregorian leap-year rule (as in `datetime`). -/
def isLeap (y : Nat) : Bool := y % 4 == 0 && (y % 100 != 0 || y % 400 == 0)

/-- Days in a month (as in `datetime`). -/
def daysInMonth (y m : Nat) : Nat :=
  if m = 2 then (if isLeap y then 29 else 28)
  else if m = 4 ∨ m = 6 ∨ m = 9 ∨ m = 11 then 30
  else 31

/-- Numeric value of an ASCII digit. -/
def digitVal (c : Char) : Nat := c.toNat - 48

/-- ASCII lowercasing of one character. -/
def lowerChar (c : Char) : Char :=
  if 'A' ≤ c ∧ c ≤ 'Z' then Char.ofNat (c.toNat + 32) else c

/-- Python `str.lower()` (ASCII range; the repository compares only
ASCII keyword strings). -/
def pyLower (s : String) : String := ⟨s.data.map lowerChar⟩

/-- `datetime.date.fromisoformat` on a string (CPython 3.10 semantics):
exactly `YYYY-MM-DD`, with year in 1..9999, month 1..12 and day valid for
the month; anything else raises `ValueError` (here: `none`). -/
def parseDate (s : String) : Option Date :=
  match s.data with
  | [y1, y2, y3, y4, h1, m1, m2, h2, d1, d2] =>
    if y1.isDigit && y2.isDigit && y3.isDigit && y4.isDigit
        && h1 == '-' && h2 == '-'
        && m1.isDigit && m2.isDigit && d1.isDigit && d2.isDigit then
      let y := digitVal y1 * 1000 + digitVal y2 * 100 + digitVal y3 * 10 + digitVal y4
      let m := digitVal m1 * 10 + digitVal m2
      let d := digitVal d1 * 10 + digitVal d2
      if 1 ≤ y ∧ y ≤ 9999 ∧ 1 ≤ m ∧ m ≤ 12 ∧ 1 ≤ d ∧ d ≤ daysInMonth y m then
        Option.some ⟨y, m, d⟩
      else Option.none
    else Option.none
  | _ => Option.none

/-- Core of `datetime.time.fromisoformat` (CPython 3.10): `HH`, `HH:MM`,
`HH:MM:SS`, optionally followed by `.fff` or `.ffffff`. -/
def parseTimeCore (cs : List Char) : Option Time :=
  match cs with
  | [a1, a2] =>
    if a1.isDigit && a2.isDigit then
      let h := digitVal a1 * 10 + digitVal a2
      if h ≤ 23 then Option.some ⟨h, 0, 0, 0⟩ else Option.none
    else Option.none
  | [a1, a2, c1, b1, b2] =>
    if a1.isDigit && a2.isDigit && c1 == ':' && b1.isDigit && b2.isDigit then
      let h := digitVal a1 * 10 + digitVal a2
      let m := digitVal b1 * 10 + digitVal b2
      if h ≤ 23 ∧ m ≤ 59 then Option.some ⟨h, m, 0, 0⟩ else Option.none
    else Option.none
  | [a1, a2, c1, b1, b2, c2, e1, e2] =>
    if a1.isDigit && a2.isDigit && c1 == ':' && b1.isDigit && b2.isDigit
        && c2 == ':' && e1.isDigit && e2.isDigit then
      let h := digitVal a1 * 10 + digitVal a2
      let m := digitVal b1 * 10 + digitVal b2
      let s := digitVal e1 * 10 + digitVal e2
      if h ≤ 23 ∧ m ≤ 59 ∧ s ≤ 59 then Option.some ⟨h, m, s, 0⟩ else Option.none
    else Option.none
  | [a1, a2, c1, b1, b2, c2, e1, e2, dot, f1, f2, f3] =>
    if a1.isDigit && a2.isDigit && c1 == ':' && b1.isDigit && b2.isDigit
        && c2 == ':' && e1.isDigit && e2.isDigit && dot == '.'
        && f1.isDigit && f2.isDigit && f3.isDigit then
      let h := digitVal a1 * 10 + digitVal a2
      let m := digitVal b1 * 10 + digitVal b2
      let s := digitVal e1 * 10 + digitVal e2
      let f := (digitVal f1 * 100 + digitVal f2 * 10 + digitVal f3) * 1000
      if h ≤ 23 ∧ m ≤ 59 ∧ s ≤ 59 then Option.some ⟨h, m, s, f⟩ else Option.none
    else Option.none
  | [a1, a2, c1, b1, b2, c2, e1, e2, dot, f1, f2, f3, f4, f5, f6] =>
    if a1.isDigit && a2.isDigit && c1 == ':' && b1.isDigit && b2.isDigit
        && c2 == ':' && e1.isDigit && e2.isDigit && dot == '.'
        && f1.isDigit && f2.isDigit && f3.isDigit
        && f4.isDigit && f5.isDigit && f6.isDigit then
      let h := digitVal a1 * 10 + digitVal a2
      let m := digitVal b1 * 10 + digitVal b2
      let s := digitVal e1 * 10 + digitVal e2
      let f := digitVal f1 * 100000 + digitVal f2 * 10000 + digitVal f3 * 1000
               + digitVal f4 * 100 + digitVal f5 * 10 + digitVal f6
      if h ≤ 23 ∧ m ≤ 59 ∧ s ≤ 59 then Option.some ⟨h, m, s, f⟩ else Option.none
    else Option.none
  | _ => Option.none

/-- A `±HH:MM` timezone suffix as accepted by
`time.fromisoformat` (the rarely used `:SS.ffffff` tz forms are elided;
no modelled code path supplies a timezone at all). -/
def tzSuffixOk (cs : List Char) : Bool :=
  match cs with
  | [a1, a2, c1, b1, b2] =>
    a1.isDigit && a2.isDigit && c1 == ':' && b1.isDigit && b2.isDigit
      && digitVal a1 * 10 + digitVal a2 ≤ 23
      && digitVal b1 * 10 + digitVal b2 ≤ 59
  | _ => false

/-- `datetime.time.fromisoformat` on a string: the core clock part,
optionally followed by a timezone offset. -/
def parseTime (s : String) : Option Time :=
  let cs := s.data
  match cs.findIdx? (fun c => c == '+' || c == '-') with
  | Option.none => parseTimeCore cs
  | Option.some i =>
    if tzSuffixOk (cs.drop (i + 1)) then parseTimeCore (cs.take i)
    else Option.none

/-- Validates a digit run possibly containing single underscores between
digits, after the first digit has been consumed (`int(...)` grammar). -/
def uDigitsAux : List Char → Bool
  | [] => true
  | '_' :: c :: rest => c.isDigit && uDigitsAux rest
  | c :: rest => c.isDigit && uDigitsAux rest

/-- A nonempty digit run with optional single underscores between digits. -/
def uDigits : List Char → Bool
  | [] => false
  | c :: rest => c.isDigit && uDigitsAux rest

/-- Numeric value of a digit run, ignoring underscores. -/
def digitsValue (cs : List Char) : Nat :=
  (cs.filter (fun c => c != '_')).foldl (fun acc c => acc * 10 + digitVal c) 0

/-- Python `int(s)` on a string: optional surrounding whitespace, an
optional sign, then digits with optional single underscores between
them.  (Non-ASCII digits, accepted by CPython, are not modelled; no code
path in the repository feeds them in.) -/
def parseIntStr (s : String) : Option Int :=
  match s.trim.data with
  | [] => Option.none
  | c :: rest =>
    if c == '+' then
      if uDigits rest then Option.some (Int.ofNat (digitsValue rest)) else Option.none
    else if c == '-' then
      if uDigits rest then Option.some (-(Int.ofNat (digitsValue rest))) else Option.none
    else
      if uDigits (c :: rest) then Option.some (Int.ofNat (digitsValue (c :: rest)))
      else Option.none

/-- An HTTP response as seen through `requests`: a status code and the
decoded JSON body (`Option.none` when the body is not valid JSON, in
which case `Response.json()` raises `ValueError`). -/
structure HttpResp where
  status : Nat
  jsonBody : Option PyVal

/-- The Python exceptions the adapter layer can see.  `requestError`
stands for `requests.RequestException`, carrying the attached response
when one exists (`HTTPError`) and `str(e)` otherwise; the remaining
constructors are ordinary exceptions with their `str(e)` text. -/
inductive PyErr where
  | requestError (response : Option HttpResp) (msg : String)
  | valueError (msg : String)
  | typeError (msg : String)
  | attributeError (msg : String)

/-- `str(e)` of an exception. -/
def pyErrMsg : PyErr → String
  | .requestError _ m => m
  | .valueError m => m
  | .typeError m => m
  | .attributeError m => m

/-- Python `int(v)` on an embedded value: integers pass through,
booleans coerce to 0/1, strings are parsed (`ValueError` on failure),
and every other type raises `TypeError`. -/
def pyToInt (v : PyVal) : Except PyErr Int :=
  match v with
  | .int n => .ok n
  | .bool b => .ok (if b then 1 else 0)
  | .str s =>
    match parseIntStr s with
    | Option.some n => .ok n
    | Option.none =>
      .error (.valueError ("invalid literal for int() with base 10: "
        ++ sglQuote ++ s ++ sglQuote))
  | v =>
    .error (.typeError ("int() argument must be a string, a bytes-like object or a real number, not "
      ++ sglQuote ++ pyTypeName v ++ sglQuote))

/-- `date.fromisoformat(v)`: `ValueError` on a malformed string,
`TypeError` on a non-string argument. -/
def pyFromIsoDate (v : PyVal) : Except PyErr Date :=
  match v with
  | .str s =>
    match parseDate s with
    | Option.some d => .ok d
    | Option.none =>
      .error (.valueError ("Invalid isoformat string: " ++ sglQuote ++ s ++ sglQuote))
  | _ => .error (.typeError "fromisoformat: argument must be str")

/-- `time.fromisoformat(v)`: `ValueError` on a malformed string,
`TypeError` on a non-string argument. -/
def pyFromIsoTime (v : PyVal) : Except PyErr Time :=
  match v with
  | .str s =>
    match parseTime s with
    | Option.some t => .ok t
    | Option.none =>
      .error (.valueError ("Invalid isoformat string: " ++ sglQuote ++ s ++ sglQuote))
  | _ => .error (.typeError "fromisoformat: argument must be str")

/-- The tools' `params` dictionary. -/
def Params := List (String × PyVal)

/-- `params.get(key)`: the stored value, or `None` when absent. -/
def pget (p : Params) (k : String) : PyVal :=
  match List.lookup k p with
  | Option.some v => v
  | Option.none => PyVal.none

/-- `params.get(key, default)`. -/
def pgetD (p : Params) (k : String) (dflt : PyVal) : PyVal :=
  match List.lookup k p with
  | Option.some v => v
  | Option.none => dflt

/-- `strftime(%Y-%m-%d)`: zero-padded ISO date. -/
def fmtDate (d : Date) : String :=
  let pad4 := fun (n : Nat) =>
    if n < 10 then "000" ++ toString n
    else if n < 100 then "00" ++ toString n
    else if n < 1000 then "0" ++ toString n
    else toString n
  let pad2 := fun (n : Nat) => if n < 10 then "0" ++ toString n else toString n
  pad4 d.year ++ "-" ++ pad2 d.month ++ "-" ++ pad2 d.day

/-- `strftime(%H:%M:%S)`: zero-padded clock time (microseconds dropped,
as `%H:%M:%S` drops them). -/
def fmtTime (t : Time) : String :=
  let pad2 := fun (n : Nat) => if n < 10 then "0" ++ toString n else toString n
  pad2 t.hour ++ ":" ++ pad2 t.minute ++ ":" ++ pad2 t.second

/-- An invocation of one of the five `RestaurantAPI` client methods,
with the argument values the tool hands over.  Fields that the tools
pass through unvalidated keep type `PyVal`; fields the tools parse first
carry their parsed type. -/
inductive ApiCall where
  | checkAvailability (restaurant_name : PyVal) (visit_date : Date)
      (party_size : Int) (channel_code : PyVal)
  | bookReservation (restaurant_name : PyVal) (visit_date : Date) (visit_time : Time)
      (party_size : Int) (channel_code special_requests is_leave_time_confirmed
      room_number customer_data : PyVal)
  | getBooking (restaurant_name booking_reference : PyVal)
  | updateBooking (restaurant_name booking_reference : PyVal)
      (visit_date : Option Date) (visit_time : Option Time) (party_size : Option Int)
      (special_requests is_leave_time_confirmed : PyVal)
  | cancelBooking (restaurant_name booking_reference : PyVal)
      (cancellation_reason_id : Int)

/-- What a tool body does before any network traffic: either it returns
an `{error: msg}` dictionary (no HTTP call is made), or it reaches the
`api_client` invocation `call c`. -/
inductive ToolOutcome where
  | err (msg : String)
  | call (c : ApiCall)

/-- The outcome is a validation error (an `{error: ...}` result produced
with no HTTP call). -/
def ToolOutcome.isErr : ToolOutcome → Prop
  | .err _ => True
  | .call _ => False

/-- `langgraph/tools.py check_availability_tool`, up to the point where
the HTTP client would be invoked.  Mirrors the source: truthiness check
of the three required params, `date.fromisoformat` guarded only against
`ValueError` (a `TypeError` falls through to the tool's own
`except Exception` and becomes `{error: str(e)}`), then `int(...)`
guarded against both `ValueError` and `TypeError`. -/
def check_availability_tool (params : Params) : ToolOutcome :=
  let restaurant_name := pget params "restaurant_name"
  let visit_date_str := pget params "visit_date"
  let party_size := pget params "party_size"
  let channel_code := pgetD params "channel_code" (PyVal.str "ONLINE")
  if !(restaurant_name.truthy && visit_date_str.truthy && party_size.truthy) then
    .err "Missing required parameters: restaurant_name, visit_date, party_size"
  else
    match pyFromIsoDate visit_date_str with
    | .error (.valueError _) =>
      .err ("Invalid date format: " ++ pyStr visit_date_str ++ ". Use YYYY-MM-DD format")
    | .error e => .err (pyErrMsg e)
    | .ok visit_date =>
      match pyToInt party_size with
      | .error _ =>
        .err ("Invalid party size: " ++ pyStr party_size ++ ". Must be a number")
      | .ok ps => .call (.checkAvailability restaurant_name visit_date ps channel_code)

/-- The inline boolean coercion in `book_reservation_tool` and
`update_reservation_tool`: a string becomes `lower() in ['true', '1',
'yes']` (note: no `'on'`, unlike `parse_boolean`); every non-string
value is left unchanged. -/
def inline_bool_coerce (v : PyVal) : PyVal :=
  match v with
  | .str s => .bool (["true", "1", "yes"].contains (pyLower s))
  | v => v

/-- `langgraph/tools.py book_reservation_tool`, up to the HTTP client
invocation. -/
def book_reservation_tool (params : Params) : ToolOutcome :=
  let restaurant_name := pget params "restaurant_name"
  let visit_date_str := pget params "visit_date"
  let visit_time_str := pget params "visit_time"
  let party_size := pget params "party_size"
  let channel_code := pgetD params "channel_code" (PyVal.str "ONLINE")
  let special_requests := pget params "special_requests"
  let is_leave_time_confirmed := pget params "is_leave_time_confirmed"
  let room_number := pget params "room_number"
  let customer_data := pgetD params "customer_data" (PyVal.dict [])
  if !(restaurant_name.truthy && visit_date_str.truthy && visit_time_str.truthy
        && party_size.truthy) then
    .err "Missing required parameters: restaurant_name, visit_date, visit_time, party_size"
  else
    match pyFromIsoDate visit_date_str with
    | .error (.valueError _) =>
      .err ("Invalid date format: " ++ pyStr visit_date_str ++ ". Use YYYY-MM-DD format")
    | .error e => .err (pyErrMsg e)
    | .ok visit_date =>
      match pyFromIsoTime visit_time_str with
      | .error (.valueError _) =>
        .err ("Invalid time format: " ++ pyStr visit_time_str ++ ". Use HH:MM:SS format")
      | .error e => .err (pyErrMsg e)
      | .ok visit_time =>
        match pyToInt party_size with
        | .error _ =>
          .err ("Invalid party size: " ++ pyStr party_size ++ ". Must be a number")
        | .ok ps =>
          let ltc :=
            if is_leave_time_confirmed.isNone then is_leave_time_confirmed
            else inline_bool_coerce is_leave_time_confirmed
          .call (.bookReservation restaurant_name visit_date visit_time ps
            channel_code special_requests ltc room_number customer_data)

/-- `langgraph/tools.py get_reservation_tool`, up to the HTTP client
invocation. -/
def get_reservation_tool (params : Params) : ToolOutcome :=
  let restaurant_name := pget params "restaurant_name"
  let booking_reference := pget params "booking_reference"
  if !(restaurant_name.truthy && booking_reference.truthy) then
    .err "Missing required parameters: restaurant_name, booking_reference"
  else
    .call (.getBooking restaurant_name booking_reference)

/-- `langgraph/tools.py update_reservation_tool`, up to the HTTP client
invocation.  Note the guards differ by field: `visit_date`/`visit_time`
are parsed only when *truthy* (an empty string is silently skipped),
while `party_size` and `is_leave_time_confirmed` are handled whenever
they are not `None`. -/
def update_reservation_tool (params : Params) : ToolOutcome :=
  let restaurant_name := pget params "restaurant_name"
  let booking_reference := pget params "booking_reference"
  let visit_date_str := pget params "visit_date"
  let visit_time_str := pget params "visit_time"
  let party_size := pget params "party_size"
  let special_requests := pget params "special_requests"
  let is_leave_time_confirmed := pget params "is_leave_time_confirmed"
  if !(restaurant_name.truthy && booking_reference.truthy) then
    .err "Missing required parameters: restaurant_name, booking_reference"
  else
    let dateStep : Except String (Option Date) :=
      if visit_date_str.truthy then
        match pyFromIsoDate visit_date_str with
        | .error (.valueError _) =>
          .error ("Invalid date format: " ++ pyStr visit_date_str ++ ". Use YYYY-MM-DD format")
        | .error e => .error (pyErrMsg e)
        | .ok d => .ok (Option.some d)
      else .ok Option.none
    match dateStep with
    | .error m => .err m
    | .ok visit_date =>
      let timeStep : Except String (Option Time) :=
        if visit_time_str.truthy then
          match pyFromIsoTime visit_time_str with
          | .error (.valueError _) =>
            .error ("Invalid time format: " ++ pyStr visit_time_str ++ ". Use HH:MM:SS format")
          | .error e => .error (pyErrMsg e)
          | .ok t => .ok (Option.some t)
        else .ok Option.none
      match timeStep with
      | .error m => .err m
      | .ok visit_time =>
        let psStep : Except String (Option Int) :=
          if party_size.isNone then .ok Option.none
          else
            match pyToInt party_size with
            | .error _ =>
              .error ("Invalid party size: " ++ pyStr party_size ++ ". Must be a number")
            | .ok n => .ok (Option.some n)
        match psStep with
        | .error m => .err m
        | .ok ps =>
          let ltc :=
            if is_leave_time_confirmed.isNone then is_leave_time_confirmed
            else inline_bool_coerce is_leave_time_confirmed
          .call (.updateBooking restaurant_name booking_reference visit_date
            visit_time ps special_requests ltc)

/-- `langgraph/tools.py cancel_reservation_tool`, up to the HTTP client
invocation. -/
def cancel_reservation_tool (params : Params) : ToolOutcome :=
  let restaurant_name := pget params "restaurant_name"
  let booking_reference := pget params "booking_reference"
  let cancellation_reason_id := pget params "cancellation_reason_id"
  if !(restaurant_name.truthy && booking_reference.truthy
        && cancellation_reason_id.truthy) then
    .err "Missing required parameters: restaurant_name, booking_reference, cancellation_reason_id"
  else
    match pyToInt cancellation_reason_id with
    | .error _ =>
      .err ("Invalid cancellation reason ID: " ++ pyStr cancellation_reason_id
        ++ ". Must be a number between 1-5")
    | .ok n =>
      if !(1 ≤ n ∧ n ≤ 5 : Bool) then
        .err "Cancellation reason ID must be between 1 and 5"
      else
        .call (.cancelBooking restaurant_name booking_reference n)

/-- Base URL both clients are constructed with. -/
def base_url : String := "http://localhost:8547"

/-- `RestaurantAPI.check_availability`: the form payload it posts. -/
def check_availability_data (visit_date : Date) (party_size : Int)
    (channel_code : PyVal) : List (String × PyVal) :=
  [("VisitDate", PyVal.str (fmtDate visit_date)),
   ("PartySize", PyVal.int party_size),
   ("ChannelCode", channel_code)]

/-- The `Customer[<FieldName>]` payload key for a customer field. -/
def customerKey (k : String) : String := "Customer[" ++ k ++ "]"

/-- The `Customer[...]` payload entries `RestaurantAPI.book_reservation`
derives from `customer_data`: one entry per field whose value is not
`None` (`if value is not None`), keyed `Customer[<FieldName>]`. -/
def customer_entries (customer_data : List (String × PyVal)) : List (String × PyVal) :=
  customer_data.filterMap (fun kv =>
    if kv.2.isNone then Option.none else Option.some (customerKey kv.1, kv.2))

/-- `RestaurantAPI.book_reservation`: the form payload it posts.  The
four base fields are unconditional; `SpecialRequests` and `RoomNumber`
are added when truthy, `IsLeaveTimeConfirmed` when not `None`, and the
customer entries when `customer_data` is truthy (an empty dict
contributes nothing either way). -/
def book_reservation_data (visit_date : Date) (visit_time : Time) (party_size : Int)
    (channel_code special_requests is_leave_time_confirmed room_number : PyVal)
    (customer_data : List (String × PyVal)) : List (String × PyVal) :=
  [("VisitDate", PyVal.str (fmtDate visit_date)),
   ("VisitTime", PyVal.str (fmtTime visit_time)),
   ("PartySize", PyVal.int party_size),
   ("ChannelCode", channel_code)]
  ++ (if special_requests.truthy then [("SpecialRequests", special_requests)] else [])
  ++ (if is_leave_time_confirmed.isNone then []
      else [("IsLeaveTimeConfirmed", is_leave_time_confirmed)])
  ++ (if room_number.truthy then [("RoomNumber", room_number)] else [])
  ++ customer_entries customer_data

/-- `RestaurantAPI.update_booking`: the form payload it patches.  Each
field is included under `if <field>:` truthiness — so a `0` party size
or an empty-string special request is dropped — except
`is_leave_time_confirmed`, which alone is compared against `None`. -/
def update_booking_data (visit_date : Option Date) (visit_time : Option Time)
    (party_size : Option Int) (special_requests is_leave_time_confirmed : PyVal) :
    List (String × PyVal) :=
  (match visit_date with
   | Option.some d => [("VisitDate", PyVal.str (fmtDate d))]
   | Option.none => [])
  ++ (match visit_time with
      | Option.some t => [("VisitTime", PyVal.str (fmtTime t))]
      | Option.none => [])
  ++ (match party_size with
      | Option.some n => if n = 0 then [] else [("PartySize", PyVal.int n)]
      | Option.none => [])
  ++ (if special_requests.truthy then [("SpecialRequests", special_requests)] else [])
  ++ (if is_leave_time_confirmed.isNone then []
      else [("IsLeaveTimeConfirmed", is_leave_time_confirmed)])

/-- `RestaurantAPI.cancel_booking`: the form payload it posts. -/
def cancel_booking_data (restaurant_name booking_reference : PyVal)
    (cancellation_reason_id : Int) : List (String × PyVal) :=
  [("micrositeName", restaurant_name),
   ("bookingReference", booking_reference),
   ("cancellationReasonId", PyVal.int cancellation_reason_id)]

/-- A wire-level request the client hands to `requests`. -/
structure HttpReq where
  method : String
  url : String
  formData : List (String × PyVal)

/-- What the transport does with one request: deliver a response, or
fail at network level (connection refused, timeout, DNS), in which case
`requests` raises an exception with `e.response is None`. -/
inductive TransportResult where
  | resp (r : HttpResp)
  | netErr (msg : String)

/-- A stubbed transport. -/
def Transport := HttpReq → TransportResult

/-- `str(e)` of a `requests.HTTPError` from `raise_for_status` (the
reason phrase CPython inserts is elided; no claim inspects this text). -/
def httpErrorStr (status : Nat) (url : String) : String :=
  toString status ++ " Error for url: " ++ url

/-- `Response.json()` failing to decode (`requests` < 2.27 raises a
plain `ValueError`; no claim exercises this path). -/
def jsonDecodeErrorMsg : String := "Expecting value: line 1 column 1 (char 0)"

/-- One client call through `requests`: issue the request,
`raise_for_status` (4xx/5xx raise an `HTTPError` carrying the
response), then decode the JSON body. -/
def clientRequest (t : Transport) (req : HttpReq) : Except PyErr PyVal :=
  match t req with
  | .netErr m => .error (.requestError Option.none m)
  | .resp r =>
    if 400 ≤ r.status ∧ r.status ≤ 599 then
      .error (.requestError (Option.some r) (httpErrorStr r.status req.url))
    else
      match r.jsonBody with
      | Option.some v => .ok v
      | Option.none => .error (.valueError jsonDecodeErrorMsg)

/-- URL templates of `RestaurantAPI` (f-strings over the base URL). -/
def availabilityUrl (restaurant_name : PyVal) : String :=
  base_url ++ "/api/ConsumerApi/v1/Restaurant/" ++ pyStr restaurant_name
    ++ "/AvailabilitySearch"

/-- `RestaurantAPI.book_reservation` URL. -/
def bookingUrl (restaurant_name : PyVal) : String :=
  base_url ++ "/api/ConsumerApi/v1/Restaurant/" ++ pyStr restaurant_name
    ++ "/BookingWithStripeToken"

/-- `RestaurantAPI.get_booking` / `update_booking` URL. -/
def bookingRefUrl (restaurant_name booking_reference : PyVal) : String :=
  base_url ++ "/api/ConsumerApi/v1/Restaurant/" ++ pyStr restaurant_name
    ++ "/Booking/" ++ pyStr booking_reference

/-- `RestaurantAPI.cancel_booking` URL. -/
def cancelUrl (restaurant_name booking_reference : PyVal) : String :=
  bookingRefUrl restaurant_name booking_reference ++ "/Cancel"

/-- Executes one `RestaurantAPI` method against a transport: builds the
URL and form payload exactly as `clients/restaurant_api.py` does, then
performs the single request.  (`book_reservation` requires its
`customer_data` to be a mapping, as `.items()` does; the tools always
hand one over — the langgraph tool defaults it to `{}`.) -/
def execApiCall (t : Transport) : ApiCall → Except PyErr PyVal
  | .checkAvailability rn d ps cc =>
    clientRequest t ⟨"POST", availabilityUrl rn, check_availability_data d ps cc⟩
  | .bookReservation rn d tm ps cc sr ltc room cd =>
    let cdList := match cd with | .dict kvs => kvs | _ => []
    clientRequest t ⟨"POST", bookingUrl rn,
      book_reservation_data d tm ps cc sr ltc room cdList⟩
  | .getBooking rn ref =>
    clientRequest t ⟨"GET", bookingRefUrl rn ref, []⟩
  | .updateBooking rn ref vd vt ps sr ltc =>
    clientRequest t ⟨"PATCH", bookingRefUrl rn ref,
      update_booking_data vd vt ps sr ltc⟩
  | .cancelBooking rn ref reason =>
    clientRequest t ⟨"POST", cancelUrl rn ref, cancel_booking_data rn ref reason⟩

/-- An `{error: msg}` result dictionary. -/
def errDict (msg : String) : PyVal := PyVal.dict [("error", PyVal.str msg)]

/-- The `AttributeError` text raised when `.get` is looked up on a
non-mapping JSON body. -/
def noAttrGetMsg (v : PyVal) : String :=
  sglQuote ++ pyTypeName v ++ sglQuote ++ " object has no attribute "
    ++ sglQuote ++ "get" ++ sglQuote

/-- `langgraph/utils.py handle_api_error`, applied to the outcome of the
wrapped call.  A `RequestException` with a response formats
`API Error (<status>): <detail>` where `<detail>` is the `detail` field
of the JSON body when the body is a JSON object containing one, and
`str(e)` when the object lacks it or the body is not JSON (`json()`
raising `ValueError` is caught).  When the decoded body is JSON but not
an object, `.get` raises `AttributeError` inside the
`except RequestException` handler — a sibling `except` clause does not
catch exceptions raised in another handler, so it escapes the wrapper.
A `RequestException` without a response formats `Network Error: ...`;
every other exception formats `Unexpected Error: ...`. -/
def handle_api_error (r : Except PyErr PyVal) : Except PyErr PyVal :=
  match r with
  | .ok v => .ok v
  | .error (.requestError (Option.some resp) msg) =>
    match resp.jsonBody with
    | Option.some (.dict kvs) =>
      let detail := match List.lookup "detail" kvs with
        | Option.some d => d
        | Option.none => PyVal.str msg
      .ok (errDict ("API Error (" ++ toString resp.status ++ "): " ++ pyStr detail))
    | Option.some v => .error (.attributeError (noAttrGetMsg v))
    | Option.none =>
      .ok (errDict ("API Error (" ++ toString resp.status ++ "): " ++ msg))
  | .error (.requestError Option.none msg) =>
    .ok (errDict ("Network Error: " ++ msg))
  | .error e => .ok (errDict ("Unexpected Error: " ++ pyErrMsg e))

/-- `restaurant_langgraph/tools.py check_availability`, up to the HTTP
client invocation: typed arguments, one `date.fromisoformat` guard. -/
def rl_check_availability (restaurant_name visit_date : String) (party_size : Int)
    (channel_code : String) : ToolOutcome :=
  match parseDate visit_date with
  | Option.none => .err ("Invalid date: " ++ visit_date ++ ". Use YYYY-MM-DD.")
  | Option.some d =>
    .call (.checkAvailability (PyVal.str restaurant_name) d party_size
      (PyVal.str channel_code))

/-- Runs `restaurant_langgraph/tools.py check_availability` end to end
against a transport: the tool body, the `RestaurantAPI` client, and the
`handle_api_error` wrapper around the whole call.
Modelled from the spec: `restaurant_langgraph/utils.py` is not present
under `src/`, so its `handle_api_error` is taken from spec §4.4, whose
description coincides with the `langgraph/utils.py` implementation
embedded above; the wrapper only touches exceptional outcomes, which
this tool's validation-error path never produces. -/
def rl_check_availability_run (t : Transport) (restaurant_name visit_date : String)
    (party_size : Int) (channel_code : String) : Except PyErr PyVal :=
  handle_api_error
    (match rl_check_availability restaurant_name visit_date party_size channel_code with
     | .err m => .ok (errDict m)
     | .call c => execApiCall t c)

/-- The customer sub-record assembled by
`restaurant_langgraph/tools.py book_reservation`: string fields are
added under truthiness (so an empty string is dropped), the two
marketing booleans under `is not None`, with DB-format PascalCase keys
in source order. -/
def rl_customer_data (title first_name surname email mobile phone
    mobile_country_code phone_country_code : Option String)
    (receive_email_marketing receive_sms_marketing : Option Bool) :
    List (String × PyVal) :=
  let strField := fun (key : String) (v : Option String) =>
    match v with
    | Option.some s => if s = "" then [] else [(key, PyVal.str s)]
    | Option.none => []
  let boolField := fun (key : String) (v : Option Bool) =>
    match v with
    | Option.some b => [(key, PyVal.bool b)]
    | Option.none => []
  strField "Title" title ++ strField "FirstName" first_name
    ++ strField "Surname" surname ++ strField "Email" email
    ++ strField "Mobile" mobile ++ strField "Phone" phone
    ++ strField "MobileCountryCode" mobile_country_code
    ++ strField "PhoneCountryCode" phone_country_code
    ++ boolField "ReceiveEmailMarketing" receive_email_marketing
    ++ boolField "ReceiveSmsMarketing" receive_sms_marketing

/-- `restaurant_langgraph/tools.py book_reservation`, up to the HTTP
client invocation: parses date and time, assembles the customer
sub-record, and calls the client (no `is_leave_time_confirmed` or
`room_number` argument — the client defaults them to `None`). -/
def rl_book_reservation (restaurant_name visit_date visit_time : String)
    (party_size : Int) (channel_code : String) (special_requests : Option String)
    (title first_name surname email mobile phone
      mobile_country_code phone_country_code : Option String)
    (receive_email_marketing receive_sms_marketing : Option Bool) : ToolOutcome :=
  match parseDate visit_date with
  | Option.none => .err ("Invalid date: " ++ visit_date ++ ". Use YYYY-MM-DD.")
  | Option.some d =>
    match parseTime visit_time with
    | Option.none => .err ("Invalid time: " ++ visit_time ++ ". Use HH:MM:SS.")
    | Option.some tm =>
      let sr := match special_requests with
        | Option.some s => PyVal.str s
        | Option.none => PyVal.none
      .call (.bookReservation (PyVal.str restaurant_name) d tm party_size
        (PyVal.str channel_code) sr PyVal.none PyVal.none
        (PyVal.dict (rl_customer_data title first_name surname email mobile phone
          mobile_country_code phone_country_code
          receive_email_marketing receive_sms_marketing)))

/-- `restaurant_langgraph/tools.py cancel_reservation`, up to the HTTP
client invocation: rejects a reason id outside 1..5 before any call. -/
def rl_cancel_reservation (restaurant_name booking_reference : String)
    (cancellation_reason_id : Int) : ToolOutcome :=
  if !(1 ≤ cancellation_reason_id ∧ cancellation_reason_id ≤ 5 : Bool) then
    .err "cancellation_reason_id must be between 1 and 5"
  else
    .call (.cancelBooking (PyVal.str restaurant_name)
      (PyVal.str booking_reference) cancellation_reason_id)

/-- `langgraph/utils.py validate_cancellation_reason`: `int(...)` then a
1..5 range check; `None` on any failure. -/
def validate_cancellation_reason (reason_id : PyVal) : Option Int :=
  match pyToInt reason_id with
  | .error _ => Option.none
  | .ok reason => if 1 ≤ reason ∧ reason ≤ 5 then Option.some reason else Option.none

/-- `langgraph/utils.py parse_boolean`: native booleans pass through,
strings map to `lower() in ['true', '1', 'yes', 'on']` (never Invalid),
integers coerce, anything else yields `None`. -/
def parse_boolean (value : PyVal) : Option Bool :=
  match value with
  | .bool b => Option.some b
  | .str s => Option.some (["true", "1", "yes", "on"].contains (pyLower s))
  | .int n => Option.some (!(n == 0))
  | _ => Option.none

/-- One turn of a chat history (`SystemMessage`/`HumanMessage`/reply). -/
structure ChatTurn where
  role : String
  content : String

/-- `agent.py ChatRequest`: the entire request body of `POST /chat` — a
single `message` field, nothing else (no session identifier). -/
structure ChatRequest where
  message : String

/-- `agent.py ChatResponse`. -/
structure ChatResponse where
  response : String
  success : Bool
  error : Option String

/-- `RestaurantBookingAgent.chat`: builds the executor input from the
message and `chat_history or []`, and returns the executor's output
string.  The LLM-driven `AgentExecutor` is the external agent-reasoning
component, abstracted as a function of the message and the forwarded
history. -/
def RestaurantBookingAgent_chat (executor : String → List ChatTurn → String)
    (message : String) (chat_history : Option (List ChatTurn)) : String :=
  executor message
    (match chat_history with
     | Option.some h => h
     | Option.none => [])

/-- `agent.py chat_endpoint`: calls `agent.chat(request.message)` —
with the `chat_history` argument left at its default `None` — and wraps
the reply.  The endpoint closes over no mutable per-session state of any
kind; its result is a function of the single request alone. -/
def chat_endpoint (executor : String → List ChatTurn → String)
    (request : ChatRequest) : ChatResponse :=
  { response := RestaurantBookingAgent_chat executor request.message Option.none,
    success := true,
    error := Option.none }

/-- Number of payload entries carrying a given key. -/
def countKey (l : List (String × PyVal)) (k : String) : Nat :=
  (l.filter (fun kv => kv.1 == k)).length

/-- Claim C9: the required-field presence checks are truthiness checks:
`check_availability_tool` given `party_size = 0`, or an empty-string
`restaurant_name` or `visit_date`, answers with the missing-required-
parameters error (not an integer/date validation error), and
`cancel_reservation_tool` given `cancellation_reason_id = 0` reports it
as missing rather than out of the 1..5 range; in each case the outcome
is an error before any HTTP call. -/
theorem C9_truthiness_as_presence :
    check_availability_tool
        [("restaurant_name", PyVal.str "TheHungryUnicorn"),
         ("visit_date", PyVal.str "2025-08-06"),
         ("party_size", PyVal.int 0)]
      = .err "Missing required parameters: restaurant_name, visit_date, party_size"
    ∧ check_availability_tool
        [("restaurant_name", PyVal.str ""),
         ("visit_date", PyVal.str "2025-08-06"),
         ("party_size", PyVal.int 2)]
      = .err "Missing required parameters: restaurant_name, visit_date, party_size"
    ∧ check_availability_tool
        [("restaurant_name", PyVal.str "TheHungryUnicorn"),
         ("visit_date", PyVal.str ""),
         ("party_size", PyVal.int 2)]
      = .err "Missing required parameters: restaurant_name, visit_date, party_size"
    ∧ cancel_reservation_tool
        [("restaurant_name", PyVal.str "TheHungryUnicorn"),
         ("booking_reference", PyVal.str "ABC1234"),
         ("cancellation_reason_id", PyVal.int 0)]
      = .err "Missing required parameters: restaurant_name, booking_reference, cancellation_reason_id" := by
  refine ⟨?_, ?_, ?_, ?_⟩ <;> rfl

/-- Claim C4: `validate_cancellation_reason` accepts exactly the
integers 1..5 (in particular 0 and 6 yield the invalid marker `None`),
and the `cancel_reservation` adapter rejects every out-of-range reason
with an error result before any HTTP call. -/
theorem C4_cancellation_reason_range :
    (∀ n : Int, validate_cancellation_reason (PyVal.int n)
        = if 1 ≤ n ∧ n ≤ 5 then Option.some n else Option.none)
    ∧ validate_cancellation_reason (PyVal.int 0) = Option.none
    ∧ validate_cancellation_reason (PyVal.int 6) = Option.none
    ∧ (∀ (rn ref : String) (r : Int), ¬ (1 ≤ r ∧ r ≤ 5) →
        rl_cancel_reservation rn ref r
          = .err "cancellation_reason_id must be between 1 and 5") := by
  refine ⟨fun n => rfl, rfl, rfl, fun rn ref r h => ?_⟩
  simp [rl_cancel_reservation, h]

/-- Witness for C4 at the concrete out-of-range reason 6. -/
theorem C4_witness :
    rl_cancel_reservation "TheHungryUnicorn" "ABC1234" 6
      = .err "cancellation_reason_id must be between 1 and 5" :=
  C4_cancellation_reason_range.2.2.2 "TheHungryUnicorn" "ABC1234" 6 (by decide)

/-- Counterexample to claim C5: the claim states that the inline boolean
handling of the create/update adapters, like `parse_boolean`, maps a
string to true exactly when its lowercase form is in
{"true", "1", "yes", "on"}.  But the inline list omits `"on"`: the
string "on" is coerced to `False` by `book_reservation_tool` (and
`update_reservation_tool`), while `parse_boolean` maps it to `True`. -/
theorem C5_counterexample :
    inline_bool_coerce (PyVal.str "on") = PyVal.bool false
    ∧ parse_boolean (PyVal.str "on") = Option.some true
    ∧ book_reservation_tool
        [("restaurant_name", PyVal.str "TheHungryUnicorn"),
         ("visit_date", PyVal.str "2025-08-06"),
         ("visit_time", PyVal.str "12:00:00"),
         ("party_size", PyVal.int 2),
         ("is_leave_time_confirmed", PyVal.str "on")]
      = .call (.bookReservation (PyVal.str "TheHungryUnicorn") ⟨2025, 8, 6⟩
          ⟨12, 0, 0, 0⟩ 2 (PyVal.str "ONLINE") PyVal.none (PyVal.bool false)
          PyVal.none (PyVal.dict [])) :=
  ⟨rfl, rfl, rfl⟩

/-- Claim C5 (amended): `parse_boolean` maps a native boolean to itself
and a string to true exactly when its lowercase form is in
{"true", "1", "yes", "on"}, with no Invalid outcome for strings; the
*inline* boolean handling of the create and update adapters also maps a
native boolean to itself and has no Invalid outcome, but its truthy set
is {"true", "1", "yes"} — it does not include "on". -/
theorem C5_boolean_parsing :
    (∀ b, parse_boolean (PyVal.bool b) = Option.some b)
    ∧ (∀ s, parse_boolean (PyVal.str s)
        = Option.some (["true", "1", "yes", "on"].contains (pyLower s)))
    ∧ parse_boolean (PyVal.str "TRUE") = Option.some true
    ∧ parse_boolean (PyVal.str "no") = Option.some false
    ∧ (∀ b, inline_bool_coerce (PyVal.bool b) = PyVal.bool b)
    ∧ (∀ s, inline_bool_coerce (PyVal.str s)
        = PyVal.bool (["true", "1", "yes"].contains (pyLower s))) :=
  ⟨fun _ => rfl, fun _ => rfl, rfl, rfl, fun _ => rfl, fun _ => rfl⟩

/-- Claim C10: `RestaurantAPI.update_booking` drops a supplied
`party_size = 0` and a supplied `special_requests = ""` from the PATCH
payload (truthiness-based inclusion), while
`is_leave_time_confirmed = False` is kept, since that field alone is
compared against `None`; hence zero / empty-string updates cannot be
transmitted through this client. -/
theorem C10_update_falsy_fields_dropped :
    (∀ (vd : Option Date) (vt : Option Time) (ltc : PyVal),
      countKey (update_booking_data vd vt (Option.some 0) (PyVal.str "") ltc)
          "PartySize" = 0
      ∧ countKey (update_booking_data vd vt (Option.some 0) (PyVal.str "") ltc)
          "SpecialRequests" = 0)
    ∧ (∀ (vd : Option Date) (vt : Option Time) (ps : Option Int) (sr : PyVal),
      ("IsLeaveTimeConfirmed", PyVal.bool false)
        ∈ update_booking_data vd vt ps sr (PyVal.bool false)) := by
  constructor
  · intro vd vt ltc
    cases vd <;> cases vt <;> cases h : ltc.isNone <;>
      simp [update_booking_data, countKey, h, PyVal.truthy]
  · intro vd vt ps sr
    cases ps <;> simp [update_booking_data, PyVal.isNone]

/-- Claim C3 (amended): the chat endpoint is stateless.  `ChatRequest`
carries only a `message` (no session identifier); `chat_endpoint` calls
`agent.chat(request.message)` with the history argument defaulted, so
every call forwards the empty history to the agent-reasoning component
and returns a successful response; no per-session turn list exists or
grows. -/
theorem C3_chat_endpoint_stateless :
    ∀ (executor : String → List ChatTurn → String) (request : ChatRequest),
      chat_endpoint executor request
        = { response := executor request.message [],
            success := true, error := Option.none } :=
  fun _ _ => rfl

/-- Counterexample to claim C3: the claim requires a per-session history
seeded with a system turn and grown by two turns per exchange, so a
second `/chat` call would forward at least [system, user1, assistant1].
Instrumenting the agent-reasoning component to report how many history
turns it receives shows every call — including the second sequential
one — forwards zero turns: no history of length 5 (or any length) is
ever stored. -/
theorem C3_counterexample :
    (chat_endpoint (fun _ h => toString h.length)
        { message := "book a table for two" }).response = "0"
    ∧ (chat_endpoint (fun _ h => toString h.length)
        { message := "same session, second message" }).response = "0" :=
  ⟨rfl, rfl⟩

/-- Counterexample to claim C2: the claim states no exception ever
escapes the wrapper.  But when the failing response's body is JSON that
is not an object — here the JSON array `[]` on a 404 — the handler's
`e.response.json().get(...)` raises `AttributeError`, which is neither
`ValueError` nor `KeyError` and is raised inside the
`except RequestException` handler, so the sibling `except Exception`
clause cannot catch it: it escapes to the caller instead of producing
the claimed `{error: "API Error (404): ..."}`. -/
theorem C2_counterexample :
    handle_api_error
        (.error (.requestError
          (Option.some ⟨404, Option.some (PyVal.list [])⟩) "404 Error"))
      = .error (.attributeError (noAttrGetMsg (PyVal.list []))) :=
  rfl

/-- Claim C2 (amended): except when an HTTP error's response body is
JSON but not an object (where an `AttributeError` escapes, see the
counterexample), the wrapper is total with the claimed formats: a
successful result passes through untouched; an HTTP error whose JSON
object body has a `detail` field d yields `{error: "API Error (s): d"}`;
one whose object body lacks `detail`, or whose body is not JSON, yields
`{error: "API Error (s): str(e)"}`; a transport error with no response
yields `{error: "Network Error: str(e)"}`; and any other exception
yields `{error: "Unexpected Error: str(e)"}`. -/
theorem C2_error_wrapper_total :
    (∀ v, handle_api_error (.ok v) = .ok v)
    ∧ (∀ (st : Nat) (m : String) (kvs : List (String × PyVal)) (d : PyVal),
        List.lookup "detail" kvs = Option.some d →
        handle_api_error
            (.error (.requestError (Option.some ⟨st, Option.some (PyVal.dict kvs)⟩) m))
          = .ok (errDict ("API Error (" ++ toString st ++ "): " ++ pyStr d)))
    ∧ (∀ (st : Nat) (m : String) (kvs : List (String × PyVal)),
        List.lookup "detail" kvs = Option.none →
        handle_api_error
            (.error (.requestError (Option.some ⟨st, Option.some (PyVal.dict kvs)⟩) m))
          = .ok (errDict ("API Error (" ++ toString st ++ "): " ++ m)))
    ∧ (∀ (st : Nat) (m : String),
        handle_api_error (.error (.requestError (Option.some ⟨st, Option.none⟩) m))
          = .ok (errDict ("API Error (" ++ toString st ++ "): " ++ m)))
    ∧ (∀ m, handle_api_error (.error (.requestError Option.none m))
        = .ok (errDict ("Network Error: " ++ m)))
    ∧ (∀ m, handle_api_error (.error (.valueError m))
        = .ok (errDict ("Unexpected Error: " ++ m)))
    ∧ (∀ m, handle_api_error (.error (.typeError m))
        = .ok (errDict ("Unexpected Error: " ++ m)))
    ∧ (∀ m, handle_api_error (.error (.attributeError m))
        = .ok (errDict ("Unexpected Error: " ++ m))) := by
  refine ⟨fun v => rfl, ?_, ?_, fun st m => rfl, fun m => rfl,
    fun m => rfl, fun m => rfl, fun m => rfl⟩
  · intro st m kvs d h
    simp [handle_api_error, h]
  · intro st m kvs h
    simp [handle_api_error, h, pyStr]

/-- Witness for C2 at the spec's concrete scenario: a 404 whose JSON
body is `{"detail": "not found"}` yields
`{error: "API Error (404): not found"}`. -/
theorem C2_witness :
    handle_api_error
        (.error (.requestError
          (Option.some ⟨404, Option.some (PyVal.dict [("detail", PyVal.str "not found")])⟩)
          "404 Error"))
      = .ok (errDict "API Error (404): not found") :=
  C2_error_wrapper_total.2.1 404 "404 Error"
    [("detail", PyVal.str "not found")] (PyVal.str "not found") rfl

/-- Counterexample to claim C7: UpdateBooking with only `partySize`
supplied does not always send a payload whose single mutable field is
`PartySize` — with `party_size = 0` the tool reaches the client
(an HTTP call is made), but the client's truthiness guard drops the
field, so the PATCH body contains no mutable field at all. -/
theorem C7_counterexample :
    update_reservation_tool
        [("restaurant_name", PyVal.str "TheHungryUnicorn"),
         ("booking_reference", PyVal.str "ABC1234"),
         ("party_size", PyVal.int 0)]
      = .call (.updateBooking (PyVal.str "TheHungryUnicorn") (PyVal.str "ABC1234")
          Option.none Option.none (Option.some 0) PyVal.none PyVal.none)
    ∧ update_booking_data Option.none Option.none (Option.some 0)
        PyVal.none PyVal.none = [] :=
  ⟨rfl, rfl⟩

/-- Claim C7 (amended): UpdateBooking with only a *nonzero* `partySize`
supplied (restaurant name and booking reference present, all other
optional fields absent) reaches the client with only `party_size` set,
and the resulting PATCH body consists of exactly the single entry
`PartySize` — no `VisitDate`, `VisitTime`, `SpecialRequests` or
`IsLeaveTimeConfirmed` key appears; a supplied `partySize` of 0 is
instead dropped entirely (see the counterexample and claim C10). -/
theorem C7_update_only_party_size (n : Int) (hn : n ≠ 0) :
    update_reservation_tool
        [("restaurant_name", PyVal.str "TheHungryUnicorn"),
         ("booking_reference", PyVal.str "ABC1234"),
         ("party_size", PyVal.int n)]
      = .call (.updateBooking (PyVal.str "TheHungryUnicorn") (PyVal.str "ABC1234")
          Option.none Option.none (Option.some n) PyVal.none PyVal.none)
    ∧ update_booking_data Option.none Option.none (Option.some n)
        PyVal.none PyVal.none = [("PartySize", PyVal.int n)] := by
  constructor
  · rfl
  · simp [update_booking_data, hn, PyVal.truthy, PyVal.isNone]

/-- Witness for C7 at party size 3. -/
theorem C7_witness :
    update_reservation_tool
        [("restaurant_name", PyVal.str "TheHungryUnicorn"),
         ("booking_reference", PyVal.str "ABC1234"),
         ("party_size", PyVal.int 3)]
      = .call (.updateBooking (PyVal.str "TheHungryUnicorn") (PyVal.str "ABC1234")
          Option.none Option.none (Option.some 3) PyVal.none PyVal.none)
    ∧ update_booking_data Option.none Option.none (Option.some 3)
        PyVal.none PyVal.none = [("PartySize", PyVal.int 3)] :=
  C7_update_only_party_size 3 (by decide)

/-- Claim C6: `check_availability` with restaurantName
"TheHungryUnicorn", visitDate "2025-08-06" and partySize 2, run against
a transport that answers the availability-search POST with a JSON
payload, returns that payload verbatim; with visitDate "08/06/2025" it
returns exactly `{error: "Invalid date: 08/06/2025. Use YYYY-MM-DD."}`
and never reaches the HTTP client (the tool body short-circuits at the
date parse, as the third conjunct states at the pre-HTTP level). -/
theorem C6_check_availability_verbatim :
    (∀ (t : Transport) (payload : PyVal),
        t ⟨"POST", availabilityUrl (PyVal.str "TheHungryUnicorn"),
           check_availability_data ⟨2025, 8, 6⟩ 2 (PyVal.str "ONLINE")⟩
          = .resp ⟨200, Option.some payload⟩ →
        rl_check_availability_run t "TheHungryUnicorn" "2025-08-06" 2 "ONLINE"
          = .ok payload)
    ∧ (∀ t : Transport,
        rl_check_availability_run t "TheHungryUnicorn" "08/06/2025" 2 "ONLINE"
          = .ok (errDict "Invalid date: 08/06/2025. Use YYYY-MM-DD."))
    ∧ rl_check_availability "TheHungryUnicorn" "08/06/2025" 2 "ONLINE"
        = .err "Invalid date: 08/06/2025. Use YYYY-MM-DD." := by
  refine ⟨?_, fun t => rfl, rfl⟩
  intro t payload h
  have hplan : rl_check_availability "TheHungryUnicorn" "2025-08-06" 2 "ONLINE"
      = ToolOutcome.call (.checkAvailability (PyVal.str "TheHungryUnicorn")
          ⟨2025, 8, 6⟩ 2 (PyVal.str "ONLINE")) := rfl
  simp only [rl_check_availability_run, hplan, execApiCall, clientRequest]
  rw [h]
  simp [handle_api_error]

/-- Witness for C6 against a concrete stub transport returning a
`{"slots": []}` payload. -/
theorem C6_witness :
    rl_check_availability_run
        (fun _ => .resp ⟨200, Option.some (PyVal.dict [("slots", PyVal.list [])])⟩)
        "TheHungryUnicorn" "2025-08-06" 2 "ONLINE"
      = .ok (PyVal.dict [("slots", PyVal.list [])]) :=
  C6_check_availability_verbatim.1
    (fun _ => .resp ⟨200, Option.some (PyVal.dict [("slots", PyVal.list [])])⟩)
    (PyVal.dict [("slots", PyVal.list [])]) rfl

/-- Counterexample to claim C1: UpdateBooking with `visit_date = ""`
supplied.  The empty string fails the YYYY-MM-DD parse (first conjunct),
yet the tool does not short-circuit: its truthiness guard treats the
falsy supplied value as absent, skips the parse, and proceeds to the
HTTP client with no date (second conjunct) — an HTTP call is made on an
input the claim says must yield an error result with no call. -/
theorem C1_counterexample :
    parseDate "" = Option.none
    ∧ update_reservation_tool
        [("restaurant_name", PyVal.str "TheHungryUnicorn"),
         ("booking_reference", PyVal.str "ABC1234"),
         ("visit_date", PyVal.str "")]
      = .call (.updateBooking (PyVal.str "TheHungryUnicorn") (PyVal.str "ABC1234")
          Option.none Option.none Option.none PyVal.none PyVal.none) :=
  ⟨rfl, rfl⟩


/-- Claim C1 (amended): for the five operations, a missing (falsy)
required field, or a failing parse that is actually attempted,
short-circuits with an error result and no HTTP call: for
CheckAvailability/CreateBooking any failing date/time/party-size parse,
for GetBooking the presence checks alone, for CancelBooking a failing or
out-of-range reason code, and for UpdateBooking any failing parse of a
*truthy* supplied `visit_date`/`visit_time` or a non-`None`
`party_size` — a falsy supplied optional date/time (e.g. `""`) is
skipped rather than parsed, so it does not short-circuit (see the
counterexample). -/
theorem C1_validation_short_circuit :
    (∀ p : Params,
      ((pget p "restaurant_name").truthy = false
        ∨ (pget p "visit_date").truthy = false
        ∨ (pget p "party_size").truthy = false
        ∨ (∃ e, pyFromIsoDate (pget p "visit_date") = .error e)
        ∨ (∃ e, pyToInt (pget p "party_size") = .error e)) →
      (check_availability_tool p).isErr)
    ∧ (∀ p : Params,
      ((pget p "restaurant_name").truthy = false
        ∨ (pget p "visit_date").truthy = false
        ∨ (pget p "visit_time").truthy = false
        ∨ (pget p "party_size").truthy = false
        ∨ (∃ e, pyFromIsoDate (pget p "visit_date") = .error e)
        ∨ (∃ e, pyFromIsoTime (pget p "visit_time") = .error e)
        ∨ (∃ e, pyToInt (pget p "party_size") = .error e)) →
      (book_reservation_tool p).isErr)
    ∧ (∀ p : Params,
      ((pget p "restaurant_name").truthy = false
        ∨ (pget p "booking_reference").truthy = false) →
      (get_reservation_tool p).isErr)
    ∧ (∀ p : Params,
      ((pget p "restaurant_name").truthy = false
        ∨ (pget p "booking_reference").truthy = false
        ∨ ((pget p "visit_date").truthy = true
            ∧ ∃ e, pyFromIsoDate (pget p "visit_date") = .error e)
        ∨ ((pget p "visit_time").truthy = true
            ∧ ∃ e, pyFromIsoTime (pget p "visit_time") = .error e)
        ∨ ((pget p "party_size").isNone = false
            ∧ ∃ e, pyToInt (pget p "party_size") = .error e)) →
      (update_reservation_tool p).isErr)
    ∧ (∀ p : Params,
      ((pget p "restaurant_name").truthy = false
        ∨ (pget p "booking_reference").truthy = false
        ∨ (pget p "cancellation_reason_id").truthy = false
        ∨ (∃ e, pyToInt (pget p "cancellation_reason_id") = .error e)
        ∨ (∃ n, pyToInt (pget p "cancellation_reason_id") = .ok n
            ∧ ¬ (1 ≤ n ∧ n ≤ 5))) →
      (cancel_reservation_tool p).isErr) := by
  refine ⟨?_, ?_, ?_, ?_, ?_⟩
  · intro p h
    cases hreq : ((pget p "restaurant_name").truthy
        && (pget p "visit_date").truthy && (pget p "party_size").truthy) with
    | false => simp [check_availability_tool, hreq, ToolOutcome.isErr]
    | true =>
      cases hd : pyFromIsoDate (pget p "visit_date") with
      | error e =>
        cases e <;> simp [check_availability_tool, hreq, hd, ToolOutcome.isErr]
      | ok d =>
        cases hi : pyToInt (pget p "party_size") with
        | error e =>
          simp [check_availability_tool, hreq, hd, hi, ToolOutcome.isErr]
        | ok n =>
          rcases h with h1 | h1 | h1 | ⟨e, he⟩ | ⟨e, he⟩
          · rw [h1] at hreq; simp at hreq
          · rw [h1] at hreq; simp at hreq
          · rw [h1] at hreq; simp at hreq
          · exact Except.noConfusion (he.symm.trans hd)
          · exact Except.noConfusion (he.symm.trans hi)
  · intro p h
    cases hreq : ((pget p "restaurant_name").truthy && (pget p "visit_date").truthy
        && (pget p "visit_time").truthy && (pget p "party_size").truthy) with
    | false => simp [book_reservation_tool, hreq, ToolOutcome.isErr]
    | true =>
      cases hd : pyFromIsoDate (pget p "visit_date") with
      | error e =>
        cases e <;> simp [book_reservation_tool, hreq, hd, ToolOutcome.isErr]
      | ok d =>
        cases ht : pyFromIsoTime (pget p "visit_time") with
        | error e =>
          cases e <;> simp [book_reservation_tool, hreq, hd, ht, ToolOutcome.isErr]
        | ok tm =>
          cases hi : pyToInt (pget p "party_size") with
          | error e =>
            simp [book_reservation_tool, hreq, hd, ht, hi, ToolOutcome.isErr]
          | ok n =>
            rcases h with h1 | h1 | h1 | h1 | ⟨e, he⟩ | ⟨e, he⟩ | ⟨e, he⟩
            · rw [h1] at hreq; simp at hreq
            · rw [h1] at hreq; simp at hreq
            · rw [h1] at hreq; simp at hreq
            · rw [h1] at hreq; simp at hreq
            · exact Except.noConfusion (he.symm.trans hd)
            · exact Except.noConfusion (he.symm.trans ht)
            · exact Except.noConfusion (he.symm.trans hi)
  · intro p h
    cases hreq : ((pget p "restaurant_name").truthy
        && (pget p "booking_reference").truthy) with
    | false => simp [get_reservation_tool, hreq, ToolOutcome.isErr]
    | true =>
      rcases h with h1 | h1
      · rw [h1] at hreq; simp at hreq
      · rw [h1] at hreq; simp at hreq
  · intro p h
    cases hreq : ((pget p "restaurant_name").truthy
        && (pget p "booking_reference").truthy) with
    | false => simp [update_reservation_tool, hreq, ToolOutcome.isErr]
    | true =>
      cases hvd : (pget p "visit_date").truthy with
      | true =>
        cases hd : pyFromIsoDate (pget p "visit_date") with
        | error e =>
          cases e <;>
            simp [update_reservation_tool, hreq, hvd, hd, ToolOutcome.isErr]
        | ok d =>
          cases hvt : (pget p "visit_time").truthy with
          | true =>
            cases ht : pyFromIsoTime (pget p "visit_time") with
            | error e =>
              cases e <;>
                simp [update_reservation_tool, hreq, hvd, hd, hvt, ht,
                  ToolOutcome.isErr]
            | ok tm =>
              cases hps : (pget p "party_size").isNone with
              | true =>
                rcases h with h1 | h1 | ⟨hv, e, he⟩ | ⟨hv, e, he⟩ | ⟨hv, e, he⟩
                · rw [h1] at hreq; simp at hreq
                · rw [h1] at hreq; simp at hreq
                · exact Except.noConfusion (he.symm.trans hd)
                · exact Except.noConfusion (he.symm.trans ht)
                · rw [hv] at hps; exact Bool.noConfusion hps
              | false =>
                cases hi : pyToInt (pget p "party_size") with
                | error e =>
                  simp [update_reservation_tool, hreq, hvd, hd, hvt, ht, hps, hi,
                    ToolOutcome.isErr]
                | ok n =>
                  rcases h with h1 | h1 | ⟨hv, e, he⟩ | ⟨hv, e, he⟩ | ⟨hv, e, he⟩
                  · rw [h1] at hreq; simp at hreq
                  · rw [h1] at hreq; simp at hreq
                  · exact Except.noConfusion (he.symm.trans hd)
                  · exact Except.noConfusion (he.symm.trans ht)
                  · exact Except.noConfusion (he.symm.trans hi)
          | false =>
            cases hps : (pget p "party_size").isNone with
            | true =>
              rcases h with h1 | h1 | ⟨hv, e, he⟩ | ⟨hv, e, he⟩ | ⟨hv, e, he⟩
              · rw [h1] at hreq; simp at hreq
              · rw [h1] at hreq; simp at hreq
              · exact Except.noConfusion (he.symm.trans hd)
              · rw [hv] at hvt; exact Bool.noConfusion hvt
              · rw [hv] at hps; exact Bool.noConfusion hps
            | false =>
              cases hi : pyToInt (pget p "party_size") with
              | error e =>
                simp [update_reservation_tool, hreq, hvd, hd, hvt, hps, hi,
                  ToolOutcome.isErr]
              | ok n =>
                rcases h with h1 | h1 | ⟨hv, e, he⟩ | ⟨hv, e, he⟩ | ⟨hv, e, he⟩
                · rw [h1] at hreq; simp at hreq
                · rw [h1] at hreq; simp at hreq
                · exact Except.noConfusion (he.symm.trans hd)
                · rw [hv] at hvt; exact Bool.noConfusion hvt
                · exact Except.noConfusion (he.symm.trans hi)
      | false =>
        cases hvt : (pget p "visit_time").truthy with
        | true =>
          cases ht : pyFromIsoTime (pget p "visit_time") with
          | error e =>
            cases e <;>
              simp [update_reservation_tool, hreq, hvd, hvt, ht, ToolOutcome.isErr]
          | ok tm =>
            cases hps : (pget p "party_size").isNone with
            | true =>
              rcases h with h1 | h1 | ⟨hv, e, he⟩ | ⟨hv, e, he⟩ | ⟨hv, e, he⟩
              · rw [h1] at hreq; simp at hreq
              · rw [h1] at hreq; simp at hreq
              · rw [hv] at hvd; exact Bool.noConfusion hvd
              · exact Except.noConfusion (he.symm.trans ht)
              · rw [hv] at hps; exact Bool.noConfusion hps
            | false =>
              cases hi : pyToInt (pget p "party_size") with
              | error e =>
                simp [update_reservation_tool, hreq, hvd, hvt, ht, hps, hi,
                  ToolOutcome.isErr]
              | ok n =>
                rcases h with h1 | h1 | ⟨hv, e, he⟩ | ⟨hv, e, he⟩ | ⟨hv, e, he⟩
                · rw [h1] at hreq; simp at hreq
                · rw [h1] at hreq; simp at hreq
                · rw [hv] at hvd; exact Bool.noConfusion hvd
                · exact Except.noConfusion (he.symm.trans ht)
                · exact Except.noConfusion (he.symm.trans hi)
        | false =>
          cases hps : (pget p "party_size").isNone with
          | true =>
            rcases h with h1 | h1 | ⟨hv, e, he⟩ | ⟨hv, e, he⟩ | ⟨hv, e, he⟩
            · rw [h1] at hreq; simp at hreq
            · rw [h1] at hreq; simp at hreq
            · rw [hv] at hvd; exact Bool.noConfusion hvd
            · rw [hv] at hvt; exact Bool.noConfusion hvt
            · rw [hv] at hps; exact Bool.noConfusion hps
          | false =>
            cases hi : pyToInt (pget p "party_size") with
            | error e =>
              simp [update_reservation_tool, hreq, hvd, hvt, hps, hi,
                ToolOutcome.isErr]
            | ok n =>
              rcases h with h1 | h1 | ⟨hv, e, he⟩ | ⟨hv, e, he⟩ | ⟨hv, e, he⟩
              · rw [h1] at hreq; simp at hreq
              · rw [h1] at hreq; simp at hreq
              · rw [hv] at hvd; exact Bool.noConfusion hvd
              · rw [hv] at hvt; exact Bool.noConfusion hvt
              · exact Except.noConfusion (he.symm.trans hi)
  · intro p h
    cases hreq : ((pget p "restaurant_name").truthy
        && (pget p "booking_reference").truthy
        && (pget p "cancellation_reason_id").truthy) with
    | false => simp [cancel_reservation_tool, hreq, ToolOutcome.isErr]
    | true =>
      cases hi : pyToInt (pget p "cancellation_reason_id") with
      | error e => simp [cancel_reservation_tool, hreq, hi, ToolOutcome.isErr]
      | ok n =>
        cases hrg : (1 ≤ n ∧ n ≤ 5 : Bool) with
        | false =>
          simp [cancel_reservation_tool, hreq, hi, hrg, ToolOutcome.isErr]
        | true =>
          rcases h with h1 | h1 | h1 | ⟨e, he⟩ | ⟨m, hm, hnr⟩
          · rw [h1] at hreq; simp at hreq
          · rw [h1] at hreq; simp at hreq
          · rw [h1] at hreq; simp at hreq
          · exact Except.noConfusion (he.symm.trans hi)
          · have hmn : m = n := by
              have h' := hm.symm.trans hi
              injection h'
            subst hmn
            exact absurd (of_decide_eq_true hrg) hnr

/-- Witness for C1: each of the five operations, called with an empty
parameter dictionary (every required field missing), yields a
validation-error result without reaching the HTTP client. -/
theorem C1_witness :
    (check_availability_tool []).isErr
    ∧ (book_reservation_tool []).isErr
    ∧ (get_reservation_tool []).isErr
    ∧ (update_reservation_tool []).isErr
    ∧ (cancel_reservation_tool []).isErr :=
  ⟨C1_validation_short_circuit.1 [] (Or.inl rfl),
   C1_validation_short_circuit.2.1 [] (Or.inl rfl),
   C1_validation_short_circuit.2.2.1 [] (Or.inl rfl),
   C1_validation_short_circuit.2.2.2.1 [] (Or.inl rfl),
   C1_validation_short_circuit.2.2.2.2 [] (Or.inl rfl)⟩

/-- `String.data` distributes over append. -/
theorem str_data_append (a b : String) : (a ++ b).data = a.data ++ b.data := by
  cases a
  cases b
  rfl

/-- The character list underlying a `Customer[...]` key. -/
theorem customerKey_data (k : String) :
    (customerKey k).data
      = 'C' :: 'u' :: 's' :: 't' :: 'o' :: 'm' :: 'e' :: 'r' :: '[' :: (k.data ++ [']']) := by
  cases k with
  | mk l => rfl

/-- A `Customer[...]` key differs from any key whose second character is
not `u` — in particular from every fixed booking-field key. -/
theorem customerKey_ne (k s : String) (hs : s.data.get? 1 ≠ Option.some 'u') :
    customerKey k ≠ s := by
  intro hEq
  apply hs
  rw [← hEq, customerKey_data]
  rfl

/-- `Customer[...]` keys are injective in the field name. -/
theorem customerKey_inj {a b : String} (h : customerKey a = customerKey b) : a = b := by
  have hd := congrArg String.data h
  rw [customerKey_data, customerKey_data] at hd
  simp at hd
  cases a with
  | mk la =>
    cases b with
    | mk lb =>
      exact congrArg String.mk hd

/-- `countKey` distributes over list append. -/
theorem countKey_append (l1 l2 : List (String × PyVal)) (k : String) :
    countKey (l1 ++ l2) k = countKey l1 k + countKey l2 k := by
  simp [countKey, List.filter_append]

/-- `countKey` of a conditional segment vanishes when it vanishes on
both branches. -/
theorem countKey_ite (c : Prop) [Decidable c] (l1 l2 : List (String × PyVal))
    (k : String) (h1 : countKey l1 k = 0) (h2 : countKey l2 k = 0) :
    countKey (if c then l1 else l2) k = 0 := by
  split <;> assumption

/-- No `Customer[...]` entry arises for a field name absent from the
customer record. -/
theorem countKey_customer_entries_not_mem (cd : List (String × PyVal)) (k : String) :
    k ∉ cd.map Prod.fst → countKey (customer_entries cd) (customerKey k) = 0 := by
  induction cd with
  | nil => intro _; rfl
  | cons hd tl ih =>
    intro hk
    obtain ⟨k', v'⟩ := hd
    have hk' : k' ≠ k := by
      intro hEq
      exact hk (by simp [hEq])
    have hk2 : k ∉ tl.map Prod.fst := fun hmem => hk (by simp [hmem])
    by_cases hv : v'.isNone = true
    · simpa [customer_entries, List.filterMap_cons, hv] using ih hk2
    · have hne : (customerKey k' == customerKey k) = false :=
        beq_eq_false_iff_ne.mpr (fun hEq2 => hk' (customerKey_inj hEq2))
      simpa [customer_entries, List.filterMap_cons, hv, countKey, hne] using ih hk2

/-- No `Customer[...]` entry arises for a field whose every occurrence
is `None`. -/
theorem countKey_customer_entries_none (cd : List (String × PyVal)) (k : String) :
    (∀ v, (k, v) ∈ cd → v.isNone = true) →
    countKey (customer_entries cd) (customerKey k) = 0 := by
  induction cd with
  | nil => intro _; rfl
  | cons hd tl ih =>
    intro hall
    obtain ⟨k', v'⟩ := hd
    have htl : ∀ v, (k, v) ∈ tl → v.isNone = true :=
      fun v hv => hall v (List.mem_cons_of_mem _ hv)
    by_cases hv : v'.isNone = true
    · simpa [customer_entries, List.filterMap_cons, hv] using ih htl
    · have hk' : k' ≠ k := by
        intro hEq
        subst hEq
        exact hv (hall v' (List.mem_cons_self _ _))
      have hne : (customerKey k' == customerKey k) = false :=
        beq_eq_false_iff_ne.mpr (fun hEq2 => hk' (customerKey_inj hEq2))
      simpa [customer_entries, List.filterMap_cons, hv, countKey, hne] using ih htl

/-- A present, non-`None` customer field produces exactly one
`Customer[...]` entry, carrying its value. -/
theorem countKey_customer_entries_mem (cd : List (String × PyVal)) (k : String)
    (v : PyVal) :
    (cd.map Prod.fst).Nodup → (k, v) ∈ cd → v.isNone = false →
    countKey (customer_entries cd) (customerKey k) = 1
      ∧ (customerKey k, v) ∈ customer_entries cd := by
  induction cd with
  | nil =>
    intro _ h _
    exact absurd h (List.not_mem_nil _)
  | cons hd tl ih =>
    intro hnd hmem hv
    obtain ⟨k', v'⟩ := hd
    rw [List.map_cons, List.nodup_cons] at hnd
    rcases List.mem_cons.mp hmem with hEq | hmem'
    · injection hEq with hk hvv
      subst hk
      subst hvv
      have h0 : countKey (customer_entries tl) (customerKey k) = 0 :=
        countKey_customer_entries_not_mem tl k hnd.1
      constructor
      · simp only [customer_entries, List.filterMap_cons, hv]
        simp only [customer_entries] at h0
        simp [countKey, List.filter_cons] at h0 ⊢
        simpa using h0
      · simp [customer_entries, List.filterMap_cons, hv]
    · have hkk : k' ≠ k := by
        intro hEq2
        subst hEq2
        exact hnd.1 (List.mem_map.mpr ⟨(k', v), hmem', rfl⟩)
      obtain ⟨ih1, ih2⟩ := ih hnd.2 hmem' hv
      have hne : (customerKey k' == customerKey k) = false :=
        beq_eq_false_iff_ne.mpr (fun hEq2 => hkk (customerKey_inj hEq2))
      by_cases hv' : v'.isNone = true
      · constructor
        · simpa [customer_entries, List.filterMap_cons, hv'] using ih1
        · simpa [customer_entries, List.filterMap_cons, hv'] using ih2
      · constructor
        · simpa [customer_entries, List.filterMap_cons, hv', countKey, hne] using ih1
        · simp only [customer_entries, List.filterMap_cons, hv', if_neg]
          exact List.mem_cons_of_mem _ ih2

/-- Claim C8: `CreateBooking` emits, for each customer field present in
the customer sub-record with a non-`None` value, exactly one payload
entry keyed `Customer[<FieldName>]` carrying that value, and emits no
`Customer[...]` entry for a field that is absent or whose value is
`None`; booking fields themselves use the remote PascalCase keys such as
`VisitDate` and `PartySize`. -/
theorem C8_customer_fields_forwarded :
    ∀ (d : Date) (tm : Time) (ps : Int) (cc sr ltc room : PyVal)
      (cd : List (String × PyVal)) (k : String),
      (cd.map Prod.fst).Nodup →
      (("VisitDate", PyVal.str (fmtDate d))
          ∈ book_reservation_data d tm ps cc sr ltc room cd
        ∧ ("PartySize", PyVal.int ps)
          ∈ book_reservation_data d tm ps cc sr ltc room cd)
      ∧ (∀ v, (k, v) ∈ cd → v.isNone = false →
          countKey (book_reservation_data d tm ps cc sr ltc room cd)
              (customerKey k) = 1
          ∧ (customerKey k, v) ∈ book_reservation_data d tm ps cc sr ltc room cd)
      ∧ ((∀ v, (k, v) ∈ cd → v.isNone = true) →
          countKey (book_reservation_data d tm ps cc sr ltc room cd)
            (customerKey k) = 0) := by
  intro d tm ps cc sr ltc room cd k hnd
  have b1 : ("VisitDate" == customerKey k) = false :=
    beq_eq_false_iff_ne.mpr (Ne.symm (customerKey_ne k "VisitDate" (by decide)))
  have b2 : ("VisitTime" == customerKey k) = false :=
    beq_eq_false_iff_ne.mpr (Ne.symm (customerKey_ne k "VisitTime" (by decide)))
  have b3 : ("PartySize" == customerKey k) = false :=
    beq_eq_false_iff_ne.mpr (Ne.symm (customerKey_ne k "PartySize" (by decide)))
  have b4 : ("ChannelCode" == customerKey k) = false :=
    beq_eq_false_iff_ne.mpr (Ne.symm (customerKey_ne k "ChannelCode" (by decide)))
  have b5 : ("SpecialRequests" == customerKey k) = false :=
    beq_eq_false_iff_ne.mpr (Ne.symm (customerKey_ne k "SpecialRequests" (by decide)))
  have b6 : ("IsLeaveTimeConfirmed" == customerKey k) = false :=
    beq_eq_false_iff_ne.mpr (Ne.symm (customerKey_ne k "IsLeaveTimeConfirmed" (by decide)))
  have b7 : ("RoomNumber" == customerKey k) = false :=
    beq_eq_false_iff_ne.mpr (Ne.symm (customerKey_ne k "RoomNumber" (by decide)))
  have h4 : countKey
      [("VisitDate", PyVal.str (fmtDate d)), ("VisitTime", PyVal.str (fmtTime tm)),
       ("PartySize", PyVal.int ps), ("ChannelCode", cc)] (customerKey k) = 0 := by
    simp [countKey, b1, b2, b3, b4]
  have hsr : countKey (if sr.truthy = true then [("SpecialRequests", sr)] else [])
      (customerKey k) = 0 :=
    countKey_ite _ _ _ _ (by simp [countKey, b5]) rfl
  have hltc : countKey
      (if ltc.isNone = true then [] else [("IsLeaveTimeConfirmed", ltc)])
      (customerKey k) = 0 :=
    countKey_ite _ _ _ _ rfl (by simp [countKey, b6])
  have hroom : countKey (if room.truthy = true then [("RoomNumber", room)] else [])
      (customerKey k) = 0 :=
    countKey_ite _ _ _ _ (by simp [countKey, b7]) rfl
  have hsplit : countKey (book_reservation_data d tm ps cc sr ltc room cd)
      (customerKey k) = countKey (customer_entries cd) (customerKey k) := by
    simp only [book_reservation_data, countKey_append, h4, hsr, hltc, hroom]
    omega
  refine ⟨⟨?_, ?_⟩, ?_, ?_⟩
  · simp [book_reservation_data]
  · simp [book_reservation_data]
  · intro v hv hvn
    obtain ⟨h1, h2⟩ := countKey_customer_entries_mem cd k v hnd hv hvn
    refine ⟨hsplit.trans h1, ?_⟩
    simp only [book_reservation_data]
    exact List.mem_append_right _ h2
  · intro hall
    exact hsplit.trans (countKey_customer_entries_none cd k hall)

/-- Witness for C8: a booking with customer record
`{FirstName: "Jo", Email: "jo@example.com"}` carries exactly one
`Customer[FirstName]` entry with the value, and no `Customer[Phone]`
entry for the absent `Phone` field. -/
theorem C8_witness :
    countKey
        (book_reservation_data ⟨2025, 8, 6⟩ ⟨12, 0, 0, 0⟩ 2 (PyVal.str "ONLINE")
          PyVal.none PyVal.none PyVal.none
          [("FirstName", PyVal.str "Jo"), ("Email", PyVal.str "jo@example.com")])
        (customerKey "FirstName") = 1
    ∧ (customerKey "FirstName", PyVal.str "Jo")
        ∈ book_reservation_data ⟨2025, 8, 6⟩ ⟨12, 0, 0, 0⟩ 2 (PyVal.str "ONLINE")
            PyVal.none PyVal.none PyVal.none
            [("FirstName", PyVal.str "Jo"), ("Email", PyVal.str "jo@example.com")]
    ∧ countKey
        (book_reservation_data ⟨2025, 8, 6⟩ ⟨12, 0, 0, 0⟩ 2 (PyVal.str "ONLINE")
          PyVal.none PyVal.none PyVal.none
          [("FirstName", PyVal.str "Jo"), ("Email", PyVal.str "jo@example.com")])
        (customerKey "Phone") = 0 := by
  have hFirst := C8_customer_fields_forwarded ⟨2025, 8, 6⟩ ⟨12, 0, 0, 0⟩ 2
    (PyVal.str "ONLINE") PyVal.none PyVal.none PyVal.none
    [("FirstName", PyVal.str "Jo"), ("Email", PyVal.str "jo@example.com")]
    "FirstName" (by decide)
  have hPhone := C8_customer_fields_forwarded ⟨2025, 8, 6⟩ ⟨12, 0, 0, 0⟩ 2
    (PyVal.str "ONLINE") PyVal.none PyVal.none PyVal.none
    [("FirstName", PyVal.str "Jo"), ("Email", PyVal.str "jo@example.com")]
    "Phone" (by decide)
  obtain ⟨hc, hm⟩ := hFirst.2.1 (PyVal.str "Jo") (List.mem_cons_self _ _) rfl
  refine ⟨hc, hm, hPhone.2.2 ?_⟩
  intro v hv
  simp at hv
